import Mathlib

/-!
# Verification of the webcrawler per-item pipeline and analysis poller

Shallow embedding of the crawler's core components, translated from the
Python sources:

* `downloader.py` — `Downloader.validate_file_size`, `Downloader.download_file`
  and the filename-resolution helpers;
* `datoidCrawler.py` — `DatoidCrawler.get_parsed_file_info` and the per-item
  body of `DatoidCrawler.crawl_page` (including its `finally:` persistence step);
* `dbManager.py` — `DBManager._get_or_create`;
* `testFile.py` / `worker.py` — `analyseFile` and the polling loop of
  `analyse_sample`.

Exceptions are modelled with `Except`, the browser/HTTP/file-system
environment with explicit data, and the download folder as a list of the
file names it contains.
-/

/-! ## Python string primitives -/

/-- `List`-level prefix test: does `s` start with `pat`? -/
def startsWithL : List Char → List Char → Bool
  | [], _ => true
  | _ :: _, [] => false
  | p :: ps, c :: cs => (p = c) && startsWithL ps cs

/-- `List`-level substring containment, the semantics of Python's `pat in s`. -/
def containsSub (pat : List Char) : List Char → Bool
  | [] => startsWithL pat []
  | c :: cs => startsWithL pat (c :: cs) || containsSub pat cs

/-- Python's `pat in s` on strings. -/
def strContains (s pat : String) : Bool := containsSub pat.data s.data

/-- One step of Python `s.split(sep)` for a non-empty separator, fuelled so the
recursion is structural (the fuel is never exhausted when it starts at
`length + 1`, since every step consumes at least one character). -/
def splitSubAux (sep : List Char) : Nat → List Char → List (List Char)
  | _, [] => [[]]
  | 0, cs => [cs]
  | Nat.succ fuel, c :: cs =>
      if sep ≠ [] && startsWithL sep (c :: cs) then
        [] :: splitSubAux sep fuel (List.drop sep.length (c :: cs))
      else
        match splitSubAux sep fuel cs with
        | [] => [[c]]
        | h :: t => (c :: h) :: t

/-- Python `s.split(sep)` on character lists. -/
def splitSub (sep cs : List Char) : List (List Char) :=
  splitSubAux sep (cs.length + 1) cs

/-- Python `s.split(sep)` on strings. -/
def pySplit (s sep : String) : List String :=
  (splitSub sep.data s.data).map (fun cs => String.mk cs)

/-- Python `s.strip()` on character lists (whitespace from both ends). -/
def pyStrip (cs : List Char) : List Char :=
  ((cs.dropWhile Char.isWhitespace).reverse.dropWhile Char.isWhitespace).reverse

/-- The filter `"".join(c for c in file_size if c.isdigit() or c == ".")` from
`Downloader.validate_file_size` (digits modelled as the ASCII digits). -/
def sizeDigits (s : String) : List Char :=
  s.data.filter (fun c => c.isDigit || c = '.')

/-- Value of a list of decimal digit characters. -/
def digitsVal (cs : List Char) : Nat :=
  cs.foldl (fun a c => a * 10 + (c.toNat - 48)) 0

/-- Digit-level part of Python `float()` on a string made only of digits and
dots: it succeeds iff there is at most one dot and at least one digit
(`""`, `"."`, `"1.2.3"` raise `ValueError`; `"15"`, `"1.5"`, `".5"`, `"5."`
parse), yielding (integer part, fractional part, fractional length). -/
def pyFloatParts (cs : List Char) : Option (Nat × Nat × Nat) :=
  if cs.count '.' ≤ 1 && cs.any (fun c => c.isDigit) then
    let ip := cs.takeWhile (fun c => c ≠ '.')
    let fp := (cs.dropWhile (fun c => c ≠ '.')).drop 1
    some (digitsVal ip, digitsVal fp, fp.length)
  else none

/-- Model of Python `float()` on a digits-and-dots string: the exact decimal
value when parsing succeeds. -/
def pyFloat (cs : List Char) : Option ℚ :=
  (pyFloatParts cs).map (fun p => (p.1 : ℚ) + (p.2.1 : ℚ) / (10 : ℚ) ^ p.2.2)

/-! ## SizeGate: `Downloader.validate_file_size` (downloader.py 110-144) -/

/-- Payload of `DownloadFileTooLargeError` (exceptions.py 57-62): the declared
size string and the configured limit. -/
structure DownloadFileTooLargeError where
  file_size : String
  max_size : ℚ
deriving DecidableEq, Repr

/-- `Downloader.validate_file_size`, with the configured
`settings.max_file_size_mb` passed explicitly. Raising
`DownloadFileTooLargeError` is modelled as `Except.error`; the
`except ValueError: return True` branch is the `none` arm of the parse. -/
def validate_file_size (max_file_size_mb : ℚ) (file_size : String) :
    Except DownloadFileTooLargeError Bool :=
  if strContains file_size "GB" then
    .error ⟨file_size, max_file_size_mb⟩
  else if strContains file_size "MB" then
    match pyFloat (sizeDigits file_size) with
    | some size =>
        if size > max_file_size_mb then .error ⟨file_size, max_file_size_mb⟩
        else .ok true
    | none => .ok true
  else .ok true

/-! ## ItemExtractor: `DatoidCrawler.get_parsed_file_info` (datoidCrawler.py 97-116) -/

/-- `[item.strip() for item in file_info.split("\n") if item.strip()]`. -/
def clearedData (file_info : String) : List String :=
  ((splitSub ['\n'] file_info.data).map (fun l => String.mk (pyStrip l))).filter
    (fun l => l ≠ "")

/-- `DatoidCrawler.get_parsed_file_info`: returns
`(title, extension, size) = (cleared[-1], cleared[0], cleared[-2])`.
The Python indexing raises `IndexError` exactly when fewer than two
non-blank lines remain, and the `except` arm then returns the sentinel
triple; the function is total (never propagates an exception). -/
def get_parsed_file_info (file_info : String) : String × String × String :=
  if 2 ≤ (clearedData file_info).length then
    ((clearedData file_info).getLastD "Unknown", (clearedData file_info).headD "Unknown",
     (clearedData file_info).getD ((clearedData file_info).length - 2) "Unknown")
  else ("Unknown", "Unknown", "Unknown")

/-! ## Helper lemmas for list positions -/

/-- The element two before the end of `l ++ [x, t]` is `x`. -/
theorem getD_penultimate (l : List String) (x t d : String) :
    (l ++ [x, t]).getD l.length d = x := by
  induction l with
  | nil => rfl
  | cons c l ih => simpa [List.getD_cons_succ] using ih

/-- The last element of `l ++ [x, t]` is `t`. -/
theorem getLastD_pair (l : List String) (x t d : String) :
    (l ++ [x, t]).getLastD d = t := by
  induction l with
  | nil => rfl
  | cons c l ih =>
      cases l with
      | nil => simp [List.getLastD]
      | cons c2 l2 => simpa using ih

/-! ## Claim theorems: SizeGate and ItemExtractor -/

/-- C2: a size string with a gigabyte marker is always rejected with
`DownloadFileTooLargeError` carrying the declared string and the limit;
a megabyte-unit string (no gigabyte marker, since that branch is checked
first) whose parsed value exceeds the configured ceiling is rejected with the
same payload, and one whose parsed value is at most the ceiling is accepted. -/
theorem validate_file_size_gate (limit : ℚ) (s : String) :
    (strContains s "GB" = true →
      validate_file_size limit s = .error ⟨s, limit⟩) ∧
    (∀ v : ℚ, strContains s "GB" = false → strContains s "MB" = true →
      pyFloat (sizeDigits s) = some v → v > limit →
      validate_file_size limit s = .error ⟨s, limit⟩) ∧
    (∀ v : ℚ, strContains s "GB" = false → strContains s "MB" = true →
      pyFloat (sizeDigits s) = some v → v ≤ limit →
      validate_file_size limit s = .ok true) := by
  refine ⟨fun h => ?_, fun v h1 h2 h3 h4 => ?_, fun v h1 h2 h3 h4 => ?_⟩
  · simp [validate_file_size, h]
  · simp [validate_file_size, h1, h2, h3, if_pos h4]
  · simp [validate_file_size, h1, h2, h3, if_neg (not_lt.mpr h4)]

/-- Witness for C2 at the configured default ceiling of 20 MB. -/
theorem validate_file_size_gate_witness :
    validate_file_size 20 "2 GB" = .error ⟨"2 GB", 20⟩ ∧
    validate_file_size 20 "25 MB" = .error ⟨"25 MB", 20⟩ ∧
    validate_file_size 20 "15 MB" = .ok true := by
  have h25 : pyFloat (sizeDigits "25 MB") = some 25 := by
    unfold pyFloat
    rw [show pyFloatParts (sizeDigits "25 MB") = some (25, 0, 0) from by decide]
    norm_num
  have h15 : pyFloat (sizeDigits "15 MB") = some 15 := by
    unfold pyFloat
    rw [show pyFloatParts (sizeDigits "15 MB") = some (15, 0, 0) from by decide]
    norm_num
  exact ⟨(validate_file_size_gate 20 "2 GB").1 (by decide),
    (validate_file_size_gate 20 "25 MB").2.1 25 (by decide) (by decide) h25 (by norm_num),
    (validate_file_size_gate 20 "15 MB").2.2 15 (by decide) (by decide) h15 (by norm_num)⟩

/-- C7: a megabyte-marked string (no gigabyte marker) whose extracted numeric
portion cannot be parsed is accepted (fail-open, `except ValueError`), and a
string with neither unit marker is accepted. -/
theorem validate_file_size_fail_open (limit : ℚ) (s : String) :
    (strContains s "GB" = false → strContains s "MB" = true →
      pyFloat (sizeDigits s) = none → validate_file_size limit s = .ok true) ∧
    (strContains s "GB" = false → strContains s "MB" = false →
      validate_file_size limit s = .ok true) := by
  refine ⟨fun h1 h2 h3 => ?_, fun h1 h2 => ?_⟩
  · simp [validate_file_size, h1, h2, h3]
  · simp [validate_file_size, h1, h2]

/-- Witness for C7: an unparsable megabyte string and a marker-free string. -/
theorem validate_file_size_fail_open_witness :
    validate_file_size 20 "1.2.3 MB" = .ok true ∧
    validate_file_size 20 "no size info" = .ok true := by
  have hn : pyFloat (sizeDigits "1.2.3 MB") = none := by
    unfold pyFloat
    rw [show pyFloatParts (sizeDigits "1.2.3 MB") = none from by decide]
    rfl
  exact ⟨(validate_file_size_fail_open 20 "1.2.3 MB").1 (by decide) (by decide) hn,
    (validate_file_size_fail_open 20 "no size info").2 (by decide) (by decide)⟩

/-- C8: after discarding blank lines, the parsed triple is
(title, extension, size) = (last, first, second-to-last); with fewer than two
non-blank lines the Python indexing raises and the sentinel triple is
returned; the function is total. -/
theorem get_parsed_file_info_positional (s : String) (e x t : String)
    (mid : List String) :
    (clearedData s = e :: mid ++ [x, t] → get_parsed_file_info s = (t, e, x)) ∧
    (clearedData s = [x, t] → get_parsed_file_info s = (t, x, x)) ∧
    ((clearedData s).length < 2 →
      get_parsed_file_info s = ("Unknown", "Unknown", "Unknown")) := by
  refine ⟨fun h => ?_, fun h => ?_, fun h => ?_⟩
  · have h2 : 2 ≤ (e :: mid ++ [x, t]).length := by simp
    have hidx : (e :: mid ++ [x, t]).length - 2 = (e :: mid).length := by simp
    simp only [get_parsed_file_info, h, if_pos h2, hidx, Prod.mk.injEq]
    exact ⟨getLastD_pair (e :: mid) x t "Unknown", rfl,
      getD_penultimate (e :: mid) x t "Unknown"⟩
  · have h2 : 2 ≤ ([x, t] : List String).length := by simp
    simp only [get_parsed_file_info, h, if_pos h2]
    rfl
  · simp only [get_parsed_file_info, if_neg (not_le.mpr h)]

/-- Witness for C8: a four-line item block and a one-line block. -/
theorem get_parsed_file_info_positional_witness :
    get_parsed_file_info "zip\n\n10 MB\nCool File" = ("Cool File", "zip", "10 MB") ∧
    get_parsed_file_info "one line" = ("Unknown", "Unknown", "Unknown") :=
  ⟨(get_parsed_file_info_positional "zip\n\n10 MB\nCool File" "zip" "10 MB"
      "Cool File" []).1 (by decide),
   (get_parsed_file_info_positional "one line" "" "" "" []).2.2 (by decide)⟩

/-! ## ContentArchiver: `Downloader` download path (downloader.py 39-108, 146-212) -/

/-- Python `s.strip("\"'")`: strip double and single quotes from both ends
(used on the Content-Disposition filename). -/
def stripQuotes (s : String) : String :=
  let isQ := fun c : Char => c = '"' || c = Char.ofNat 39
  String.mk (((s.data.dropWhile isQ).reverse.dropWhile isQ).reverse)

/-- The fields of an HTTP response that `download_file` consumes. A header
that is absent or empty (both falsy in the Python conditions) is `none`. -/
structure DlResponse where
  statusCode : Nat
  contentDisposition : Option String
  contentType : Option String
deriving DecidableEq, Repr

/-- Outcome of `requests.get` in `download_file`: a timeout, another
`RequestException`, or a response. -/
inductive DlReq
  | timeout
  | reqError (msg : String)
  | ok (resp : DlResponse)
deriving DecidableEq, Repr

/-- Transport and file-system behaviour for one `download_file` call.
`mimeGuess` abstracts the `mimetypes.guess_extension` table; `writeError`
says whether an `OSError`/`IOError`/`BadZipFile` interrupts the streaming
loop after the archive file has been created. -/
structure DlEnv where
  req : DlReq
  url : String
  writeError : Bool
  mimeGuess : String → Option String

/-- `Downloader._get_file_extension`: extension guessed from Content-Type,
or the empty string. -/
def get_file_extension (mimeGuess : String → Option String)
    (resp : DlResponse) : String :=
  match resp.contentType with
  | some ct => (mimeGuess ct).getD ""
  | none => ""

/-- `Downloader._get_file_name`: Content-Disposition filename when present,
else the trailing URL segment, extended with a guessed extension when the
segment has no dot. -/
def get_file_name (mimeGuess : String → Option String) (resp : DlResponse)
    (url : String) : String :=
  let fromUrl :=
    let filename := (pySplit url "/").getLastD url
    if strContains filename "." then filename
    else filename ++ get_file_extension mimeGuess resp
  match resp.contentDisposition with
  | some cd =>
      if strContains cd "filename=" then
        stripQuotes ((pySplit cd "filename=").getLastD cd)
      else fromUrl
  | none => fromUrl

/-- Base-name part of `os.path.splitext` for names without path separators:
drop the suffix starting at the last dot, except that a run of leading dots
never starts an extension. -/
def splitextBase (p : String) : String :=
  let cs := p.data
  let lead := cs.takeWhile (fun c => c = '.')
  let rest := cs.drop lead.length
  if rest.any (fun c => c = '.') then
    String.mk (lead ++ ((rest.reverse.dropWhile (fun c => c ≠ '.')).drop 1).reverse)
  else p

/-- The candidate names tried by `Downloader._get_unique_file_path`:
`base.zip`, then `base(1).zip`, `base(2).zip`, ... -/
def candidateName (base : String) : Nat → String
  | 0 => base ++ ".zip"
  | Nat.succ k => base ++ "(" ++ toString (k + 1) ++ ")" ++ ".zip"

/-- The `while file_path.exists()` loop of `_get_unique_file_path`, fuelled:
the download folder holds finitely many names, so with fuel
`fs.length + 1` the loop always stops at a free candidate. -/
def uniqueSearch (fs : List String) (base : String) : Nat → Nat → String
  | 0, k => candidateName base k
  | Nat.succ fuel, k =>
      if fs.contains (candidateName base k) then uniqueSearch fs base fuel (k + 1)
      else candidateName base k

/-- `Downloader._get_unique_file_path`, over the download folder contents. -/
def get_unique_file_path (fs : List String) (filename : String) : String :=
  uniqueSearch fs (splitextBase filename) (fs.length + 1) 0

/-- `response.raise_for_status()` raises `HTTPError` exactly for
status codes in [400, 600). -/
def raise_for_status (code : Nat) : Bool := 400 ≤ code && code < 600

/-- `Downloader.download_file` over an explicit environment. The result is
`((status message, archive path, has_error), final folder contents)`.
Totality mirrors the code: every raise in the body is caught by a handler
that ends in a `return` (the inner `DownloadIOError` re-raise included), so
no exception escapes. Creating the archive pushes its name onto the folder
list; the inner `except (OSError, IOError, BadZipFile)` handler deletes the
incomplete file (`file_path.unlink()` guarded by `file_path.exists()`)
before the error is surfaced. -/
def download_file (env : DlEnv) (fs : List String) :
    (String × Option String × Bool) × List String :=
  match env.req with
  | .timeout => (("Download timeout", none, true), fs)
  | .reqError m => (("Download request failed: " ++ m, none, true), fs)
  | .ok resp =>
      if raise_for_status resp.statusCode then
        (("Download request failed: HTTP " ++ toString resp.statusCode, none, true), fs)
      else
        let file_name := get_file_name env.mimeGuess resp env.url
        let file_path := get_unique_file_path fs file_name
        let fs1 := file_path :: fs
        if env.writeError then
          let fs2 := if fs1.contains file_path then fs1.erase file_path else fs1
          (("File write error", none, true), fs2)
        else
          (("File successfully downloaded", some file_path, false), fs1)

/-- The archive path returned on the success path of `download_file`. -/
def successPath (env : DlEnv) (fs : List String) (resp : DlResponse) : String :=
  get_unique_file_path fs (get_file_name env.mimeGuess resp env.url)

/-- Result shape of `download_file`: the path is absent exactly when the
error flag is set. -/
theorem download_file_path_iff_err (env : DlEnv) (fs : List String) :
    ((download_file env fs).1.2.1 = none ↔ (download_file env fs).1.2.2 = true) := by
  unfold download_file
  rcases env.req with - | m | resp
  · simp
  · simp
  · by_cases h : raise_for_status resp.statusCode <;>
      by_cases hw : env.writeError <;> simp [h, hw]

/-- C10: `download_file` is total — every handler ends in a `return`, so for
every transport and file-system behaviour it yields a
(status message, path, error flag) triple; every failure path carries
`none` with the flag set, and the success path carries the resolved archive
path with the flag clear. -/
theorem download_file_total_shape (env : DlEnv) (fs : List String) :
    ((download_file env fs).1.2.1 = none ↔ (download_file env fs).1.2.2 = true) ∧
    ((download_file env fs).1.2.2 = false →
      ∃ resp, env.req = .ok resp ∧ raise_for_status resp.statusCode = false ∧
        env.writeError = false ∧
        (download_file env fs).1.2.1 = some (successPath env fs resp)) := by
  refine ⟨download_file_path_iff_err env fs, fun h => ?_⟩
  unfold download_file at h
  rcases hr : env.req with - | m | resp
  all_goals rw [hr] at h
  · simp at h
  · simp at h
  · by_cases hs : raise_for_status resp.statusCode = true
    · simp [hs] at h
    · rw [Bool.not_eq_true] at hs
      by_cases hw : env.writeError = true
      · simp [hs, hw] at h
      · rw [Bool.not_eq_true] at hw
        refine ⟨resp, rfl, hs, hw, ?_⟩
        unfold download_file
        rw [hr]
        simp [hs, hw, successPath]

/-- Witness for C10: a successful download of `http://x/y.mp3` into an empty
folder lands at the resolved archive path. -/
theorem download_file_total_shape_witness :
    ∃ resp, (DlEnv.mk (.ok ⟨200, none, none⟩) "http://x/y.mp3" false
        (fun _ => none)).req = .ok resp ∧
      raise_for_status resp.statusCode = false ∧
      (DlEnv.mk (.ok ⟨200, none, none⟩) "http://x/y.mp3" false
        (fun _ => none)).writeError = false ∧
      (download_file (DlEnv.mk (.ok ⟨200, none, none⟩) "http://x/y.mp3" false
        (fun _ => none)) []).1.2.1 =
        some (successPath (DlEnv.mk (.ok ⟨200, none, none⟩) "http://x/y.mp3" false
          (fun _ => none)) [] resp) :=
  (download_file_total_shape
    (DlEnv.mk (.ok ⟨200, none, none⟩) "http://x/y.mp3" false (fun _ => none)) []).2 rfl

/-- C3: when a write error interrupts the stream after the archive file was
created, the partial file is deleted before the failure is reported: the
folder contents after `download_file` returns equal the contents before the
call, and the result is the error triple. -/
theorem download_file_cleanup_on_write_error (env : DlEnv) (fs : List String)
    (resp : DlResponse) (hreq : env.req = .ok resp)
    (hst : raise_for_status resp.statusCode = false)
    (hw : env.writeError = true) :
    (download_file env fs).2 = fs ∧
    (download_file env fs).1 = ("File write error", none, true) := by
  unfold download_file
  rw [hreq]
  simp [hst, hw]

/-- Witness for C3: a mid-stream write failure leaves the folder exactly as
it was. -/
theorem download_file_cleanup_on_write_error_witness :
    (download_file (DlEnv.mk (.ok ⟨200, none, none⟩) "http://x/y.mp3" true
      (fun _ => none)) ["other.zip"]).2 = ["other.zip"] ∧
    (download_file (DlEnv.mk (.ok ⟨200, none, none⟩) "http://x/y.mp3" true
      (fun _ => none)) ["other.zip"]).1 = ("File write error", none, true) :=
  download_file_cleanup_on_write_error
    (DlEnv.mk (.ok ⟨200, none, none⟩) "http://x/y.mp3" true (fun _ => none))
    ["other.zip"] ⟨200, none, none⟩ rfl rfl rfl

/-! ## PersistenceRecorder: `DBManager._get_or_create` (dbManager.py 76-122) -/

/-- One row of a name-keyed lookup table. -/
structure TableRow where
  id : Nat
  value : String
deriving DecidableEq, Repr

/-- One lookup table, with an autoincrementing id; a unique constraint on the
value column is assumed (spec section 4.7). -/
structure Table where
  rows : List TableRow
  nextId : Nat
deriving DecidableEq, Repr

/-- `SELECT {table}ID FROM {table} WHERE {column} = ?` followed by
`fetchone()`. -/
def Table.lookup (t : Table) (v : String) : Option Nat :=
  (t.rows.find? (fun r => r.value == v)).map (fun r => r.id)

/-- A committed `INSERT INTO {table} ({column}) VALUES (?)` (the unique
constraint is checked by the caller model before this runs). -/
def Table.insertRaw (t : Table) (v : String) : Table :=
  ⟨t.rows ++ [⟨t.nextId, v⟩], t.nextId + 1⟩

/-- The two database exceptions `_get_or_create` can raise:
`DatabaseQueryError` (wrapping any `pyodbc.Error`, unique-constraint
violations included, since `pyodbc.IntegrityError` is a subclass of
`pyodbc.Error`) and `DatabaseInsertError` (id re-lookup after insert found
nothing). -/
inductive DBErr
  | queryError
  | insertError
deriving DecidableEq, Repr

/-- `DBManager._get_or_create`: SELECT; if found, return the id; else INSERT,
commit, and re-SELECT the id. `interference` is a value committed by a
concurrent transaction between this transaction's SELECT and its INSERT;
if the INSERT then violates the unique constraint, pyodbc raises
`IntegrityError`, which the `except pyodbc.Error` handler re-raises as
`DatabaseQueryError`. Returns the table state and the id. -/
def get_or_create (t : Table) (interference : Option String) (value : String) :
    Except DBErr (Table × Nat) :=
  match t.lookup value with
  | some id => .ok (t, id)
  | none =>
      let t1 := match interference with
        | some w => t.insertRaw w
        | none => t
      if t1.rows.any (fun r => r.value == value) then
        .error .queryError
      else
        let t2 := t1.insertRaw value
        match t2.lookup value with
        | some id2 => .ok (t2, id2)
        | none => .error .insertError

/-- The empty lookup table. -/
def emptyTable : Table := ⟨[], 1⟩

/-- Counterexample to C6: with an empty table, a concurrent insert of the
same value between the SELECT and the INSERT makes the INSERT violate the
unique constraint, and `_get_or_create` surfaces that violation as a fatal
`DatabaseQueryError` instead of re-resolving the id by lookup (the claim
predicts a successful result carrying the existing row's id). -/
theorem get_or_create_conflict_fatal :
    get_or_create emptyTable (some "chrome") "chrome" = .error .queryError := rfl

/-- C6 (amended): sequential get-or-create is idempotent — starting from a
table with at most one row for the value, calling `_get_or_create` twice
yields the same identifier both times and exactly one underlying row — but
when the insert step hits a unique-constraint violation (the value appeared
concurrently after the SELECT), the violation is surfaced as a fatal
`DatabaseQueryError`, not re-resolved by lookup. -/
theorem get_or_create_amended (t : Table) (v : String) :
    ((t.rows.filter (fun r => r.value == v)).length ≤ 1 →
      ∃ t1 i, get_or_create t none v = .ok (t1, i) ∧
        get_or_create t1 none v = .ok (t1, i) ∧
        (t1.rows.filter (fun r => r.value == v)).length = 1) ∧
    (t.lookup v = none → get_or_create t (some v) v = .error .queryError) := by
  constructor
  · intro hcount
    rcases hl : t.lookup v with - | id
    · -- not found: insert, re-select, and the second call finds the new row
      have hnone : t.rows.find? (fun r => r.value == v) = none := by
        unfold Table.lookup at hl
        exact Option.map_eq_none.mp hl
      have hall := List.find?_eq_none.mp hnone
      refine ⟨t.insertRaw v, t.nextId, ?_, ?_, ?_⟩
      · unfold get_or_create
        rw [hl]
        have hany : (t.rows.any (fun r => r.value == v)) = false := by
          rw [List.any_eq_false]
          intro r hr
          simpa using hall r hr
        simp only [hany, Bool.false_eq_true, if_false]
        have : (t.insertRaw v).lookup v = some t.nextId := by
          unfold Table.lookup Table.insertRaw
          rw [List.find?_append, hnone]
          simp
        rw [this]
      · unfold get_or_create
        have : (t.insertRaw v).lookup v = some t.nextId := by
          unfold Table.lookup Table.insertRaw
          rw [List.find?_append, hnone]
          simp
        rw [this]
      · unfold Table.insertRaw
        rw [List.filter_append]
        have hfil : t.rows.filter (fun r => r.value == v) = [] := by
          rw [List.filter_eq_nil_iff]
          intro r hr
          simpa using hall r hr
        simp [hfil]
    · -- found: both calls return the existing id unchanged
      rcases hfind : t.rows.find? (fun r => r.value == v) with - | row
      · unfold Table.lookup at hl
        rw [hfind] at hl
        simp at hl
      · refine ⟨t, id, ?_, ?_, ?_⟩
        · unfold get_or_create
          rw [hl]
        · unfold get_or_create
          rw [hl]
        · have hmemrow : row ∈ t.rows := List.mem_of_find?_eq_some hfind
          have hpred := List.find?_some hfind
          have hmemf : row ∈ t.rows.filter (fun r => r.value == v) :=
            List.mem_filter.mpr ⟨hmemrow, hpred⟩
          have h1 : 0 < (t.rows.filter (fun r => r.value == v)).length :=
            List.length_pos.mpr (List.ne_nil_of_mem hmemf)
          omega
  · intro hl
    unfold get_or_create
    rw [hl]
    have : ((t.insertRaw v).rows.any (fun r => r.value == v)) = true := by
      unfold Table.insertRaw
      simp [List.any_append]
    simp only [this, if_true]

/-- Witness for C6 (amended): on an empty table, two sequential calls agree
and leave one row; a concurrent duplicate makes the call fail fatally. -/
theorem get_or_create_amended_witness :
    (∃ t1 i, get_or_create emptyTable none "chrome" = .ok (t1, i) ∧
      get_or_create t1 none "chrome" = .ok (t1, i) ∧
      (t1.rows.filter (fun r => r.value == "chrome")).length = 1) ∧
    get_or_create emptyTable (some "chrome") "chrome" = .error .queryError :=
  ⟨(get_or_create_amended emptyTable "chrome").1 (by decide),
   (get_or_create_amended emptyTable "chrome").2 (by decide)⟩

/-! ## AnalysisPoller: `analyseFile` (testFile.py 94-193) and the polling
loop of `analyse_sample` (worker.py 107-135) -/

/-- The detection statistics block of a VirusTotal analysis body. -/
structure VTStats where
  harmless : Nat
  malicious : Nat
  undetected : Nat
deriving DecidableEq, Repr

/-- The JSON body of a VirusTotal analyses response: either the keys
`data.attributes` / `meta.file_info` / `status` / `stats` are missing
(`KeyError` on extraction) or the extracted fields. -/
inductive VTBody
  | malformed
  | parsed (status : String) (stats : VTStats) (sha256 : String)
deriving DecidableEq, Repr

/-- Outcome of the `requests.get` in `analyseFile`. -/
inductive VTReq
  | timeout
  | reqError
  | resp (code : Nat) (body : VTBody)
deriving DecidableEq, Repr

/-- `VirusTotalAPIError` (the only exception `analyseFile` lets escape). -/
inductive VTError
  | apiError
deriving DecidableEq, Repr

/-- The completed-analysis payload returned by `analyseFile`. -/
structure VTData where
  status : String
  stats : VTStats
  sha256 : String
deriving DecidableEq, Repr

/-- `analyseFile`: one status check. HTTP 429 returns `None` without error
(checked before `raise_for_status`); a request timeout also returns `None`;
any status in [400, 600) raises `VirusTotalAPIError` via `raise_for_status`;
a malformed body raises `VirusTotalAPIError` via the `KeyError` handler; a
well-formed body yields `None` unless its status is `"completed"`. The
database writes on the completed path are wrapped in their own
`try`/`except` and cannot change the result. -/
def analyseFile (r : VTReq) : Except VTError (Option VTData) :=
  match r with
  | .timeout => .ok none
  | .reqError => .error .apiError
  | .resp code body =>
      if code = 429 then .ok none
      else if raise_for_status code then .error .apiError
      else match body with
        | .malformed => .error .apiError
        | .parsed st stats sha =>
            if st ≠ "completed" then .ok none
            else .ok (some ⟨st, stats, sha⟩)

/-- The two ways `analyse_sample` can abort the polling phase:
a propagated `VirusTotalAPIError`, or the `TimeoutError` raised after the
attempt budget is exhausted. -/
inductive PollError
  | apiError
  | timeoutError
deriving DecidableEq, Repr

/-- The `while not data and attempts < max_attempts` loop of
`analyse_sample`: `respond i` is the transport outcome of the i-th status
check, the fuel is `max_attempts - attempts`. Returns the loop result (data,
propagated API error, or the final `TimeoutError`) together with the number
of status checks issued. -/
def pollLoop (respond : Nat → VTReq) : Nat → Nat → (Except PollError VTData) × Nat
  | 0, _ => (.error .timeoutError, 0)
  | Nat.succ fuel, i =>
      match analyseFile (respond i) with
      | .error _ => (.error .apiError, 1)
      | .ok (some d) => (.ok d, 1)
      | .ok none =>
          ((pollLoop respond fuel (i + 1)).1, (pollLoop respond fuel (i + 1)).2 + 1)

/-- The polling phase of `analyse_sample`, with
`max_attempts = settings.vt_max_wait_time // settings.vt_analysis_check_interval`. -/
def analyse_sample_poll (respond : Nat → VTReq)
    (vt_max_wait_time vt_analysis_check_interval : Nat) :
    (Except PollError VTData) × Nat :=
  pollLoop respond (vt_max_wait_time / vt_analysis_check_interval) 0

/-- `pollLoop` issues at most `fuel` status checks. -/
theorem pollLoop_calls_le (respond : Nat → VTReq) :
    ∀ fuel i, (pollLoop respond fuel i).2 ≤ fuel := by
  intro fuel
  induction fuel with
  | zero => intro i; simp [pollLoop]
  | succ fuel ih =>
      intro i
      unfold pollLoop
      rcases analyseFile (respond i) with e | - | d
      · simp
      · simpa using Nat.succ_le_succ (ih (i + 1))
      · simp

/-- If every check in the window yields `None`, `pollLoop` ends in the
timeout error. -/
theorem pollLoop_all_none (respond : Nat → VTReq) :
    ∀ fuel i, (∀ k, k < fuel → analyseFile (respond (i + k)) = .ok none) →
      (pollLoop respond fuel i).1 = .error .timeoutError := by
  intro fuel
  induction fuel with
  | zero => intro i _; simp [pollLoop]
  | succ fuel ih =>
      intro i hall
      unfold pollLoop
      have h0 : analyseFile (respond i) = .ok none := by
        simpa using hall 0 (Nat.succ_pos fuel)
      rw [h0]
      exact ih (i + 1) (fun k hk => by
        have := hall (k + 1) (Nat.succ_lt_succ hk)
        simpa [Nat.add_assoc, Nat.add_comm 1 k] using this)

/-- C4: the polling phase issues at most
`vt_max_wait_time // vt_analysis_check_interval` status checks, and if no
completed verdict is obtained in that budget (every check in the window
reports not-ready), the loop terminates with the fatal `TimeoutError` —
never an unbounded wait, never silent success. -/
theorem analyse_sample_polling_bounded (respond : Nat → VTReq)
    (vt_max_wait_time vt_analysis_check_interval : Nat) :
    (analyse_sample_poll respond vt_max_wait_time vt_analysis_check_interval).2 ≤
      vt_max_wait_time / vt_analysis_check_interval ∧
    ((∀ k, k < vt_max_wait_time / vt_analysis_check_interval →
        analyseFile (respond k) = .ok none) →
      (analyse_sample_poll respond vt_max_wait_time vt_analysis_check_interval).1 =
        .error .timeoutError) := by
  refine ⟨pollLoop_calls_le respond _ 0, fun hall => ?_⟩
  exact pollLoop_all_none respond _ 0 (fun k hk => by simpa using hall k hk)

/-- Witness for C4 at the default settings (600 s budget, 10 s interval,
60 attempts): a scanner that always answers "queued" forces the timeout. -/
theorem analyse_sample_polling_bounded_witness :
    (analyse_sample_poll (fun _ => .resp 200 (.parsed "queued" ⟨0, 0, 0⟩ "")) 600 10).1 =
      .error .timeoutError :=
  (analyse_sample_polling_bounded
    (fun _ => .resp 200 (.parsed "queued" ⟨0, 0, 0⟩ "")) 600 10).2 (fun _ _ => rfl)

/-- C5: an HTTP 429 during polling is soft — the status check returns no
data and raises no error, and the loop consumes one attempt and goes on
polling — whereas any other `raise_for_status`-failing status makes the
status check raise `VirusTotalAPIError`, which aborts the loop after that
single check, with no retry. -/
theorem analyse_poll_rate_limit_vs_hard_error (respond : Nat → VTReq)
    (fuel i code : Nat) (body : VTBody) :
    (respond i = .resp 429 body →
      analyseFile (respond i) = .ok none ∧
      pollLoop respond (fuel + 1) i =
        ((pollLoop respond fuel (i + 1)).1, (pollLoop respond fuel (i + 1)).2 + 1)) ∧
    (respond i = .resp code body → code ≠ 429 → raise_for_status code = true →
      analyseFile (respond i) = .error .apiError ∧
      pollLoop respond (fuel + 1) i = (.error .apiError, 1)) := by
  constructor
  · intro h
    have ha : analyseFile (respond i) = .ok none := by rw [h]; simp [analyseFile]
    refine ⟨ha, ?_⟩
    conv_lhs => unfold pollLoop
    rw [ha]
  · intro h hc hs
    have ha : analyseFile (respond i) = .error .apiError := by
      rw [h]; simp [analyseFile, hc, hs]
    refine ⟨ha, ?_⟩
    conv_lhs => unfold pollLoop
    rw [ha]

/-- Witness for C5: a 429 response retries (one attempt consumed), an HTTP
500 aborts after exactly one check. -/
theorem analyse_poll_rate_limit_vs_hard_error_witness :
    (analyseFile (VTReq.resp 429 .malformed) = .ok none ∧
      pollLoop (fun _ => .resp 429 .malformed) 1 0 =
        ((pollLoop (fun _ => .resp 429 .malformed) 0 1).1,
         (pollLoop (fun _ => .resp 429 .malformed) 0 1).2 + 1)) ∧
    (analyseFile (VTReq.resp 500 .malformed) = .error .apiError ∧
      pollLoop (fun _ => .resp 500 .malformed) 1 0 = (.error .apiError, 1)) :=
  ⟨(analyse_poll_rate_limit_vs_hard_error
      (fun _ => .resp 429 .malformed) 0 0 500 .malformed).1 rfl,
   (analyse_poll_rate_limit_vs_hard_error
      (fun _ => .resp 500 .malformed) 0 0 500 .malformed).2 rfl (by decide) rfl⟩

/-! ## The per-item body of `DatoidCrawler.crawl_page` (datoidCrawler.py 135-264) -/

/-- Outcome of the Selenium detail-resolution steps for one item (open the
detail window, click the two download controls, wait for the final link):
a resolved download href, a selenium `TimeoutException`, or any other
exception. `update_task_state` and `close_window` catch their own
exceptions and cannot alter this outcome. -/
inductive ResolveOutcome
  | resolved (link : String)
  | timeoutExc
  | otherExc

/-- Environment of one iteration of the item loop: whether
`item.get_attribute("text")` succeeded, the raw item text block,
`settings.max_file_size_mb`, the detail-resolution outcome, the transport
and folder environment handed to `download_file` (its `url` field is
replaced by the resolved link), and the value `calculate_sha256` returns
for the downloaded archive (`none` is its error sentinel — hashManager.py
returns `None` instead of raising). -/
structure ItemEnv where
  infoOk : Bool
  file_info : String
  limit : ℚ
  resolve : ResolveOutcome
  dl : DlEnv
  fs : List String
  hashResult : Option String

/-- The local variables of one item iteration as they stand when control
reaches the `finally:` block. `download_exception` holds the `has_error`
flag returned by `download_file` once assigned; the code initializes it to
`None` and assigns the flag on success and failure alike, so only
`some true` counts as "set". -/
structure ItemLocals where
  file_title : Option String
  file_size : Option String
  file_extension : Option String
  size_exception : Option String
  timeout_exception : Option String
  download_exception : Option Bool
  download_info : Option String
  download_path : Option String
  hash_value : Option String

/-- All-`none` initial state of the per-item locals (datoidCrawler.py
136-139). -/
def initLocals : ItemLocals := ⟨none, none, none, none, none, none, none, none, none⟩

/-- `str(DownloadFileTooLargeError(file_size, max_size))`, as built by the
exception constructor. -/
def tooLargeMessage (e : DownloadFileTooLargeError) : String :=
  "File size " ++ e.file_size ++ " exceeds maximum allowed size of "
    ++ toString e.max_size ++ " MB"

/-- One iteration of the item loop of `crawl_page`, from the `try:` to the
state at entry of `finally:`. Control flow mirrors the source: a failed
`get_attribute` is swallowed by the generic `except Exception` handler (no
flags set); a `DownloadFileTooLargeError` from the size gate sets only
`size_exception` and `continue`s (the `finally:` still runs); a selenium
`TimeoutException` during detail resolution sets only `timeout_exception`;
any other resolution exception sets no flag; otherwise `download_file` is
called — it is total, so no exception can reach the handlers from it — and
its message, path and flag land in the locals; when the path is truthy the
hash is computed. -/
def runItem (env : ItemEnv) : ItemLocals :=
  if env.infoOk then
    let tes := get_parsed_file_info env.file_info
    let l0 : ItemLocals :=
      { initLocals with
          file_title := some tes.1,
          file_extension := some tes.2.1,
          file_size := some tes.2.2 }
    match validate_file_size env.limit tes.2.2 with
    | .error e => { l0 with size_exception := some (tooLargeMessage e) }
    | .ok _ =>
        match env.resolve with
        | .timeoutExc =>
            { l0 with timeout_exception := some ("Timeout downloading file: " ++ tes.1) }
        | .otherExc => l0
        | .resolved link =>
            let dl := download_file { env.dl with url := link } env.fs
            let l1 : ItemLocals :=
              { l0 with
                  download_info := some dl.1.1,
                  download_path := dl.1.2.1,
                  download_exception := some dl.1.2.2 }
            match dl.1.2.1 with
            | none => l1
            | some _ => { l1 with hash_value := env.hashResult }
  else initLocals

/-- A database operation issued by the `finally:` block of the item loop. -/
inductive DBOp
  | insertHash (h : String)
  | insertCrack (title size ext zipname : Option String) (hashId : Option Nat)
  | insertError (msg : String)

/-- The `finally:` persistence step (datoidCrawler.py 239-261): one
`insert_crack` always — carrying the archive name and the id returned by
`insert_hash` when both `download_path` and `hash_value` are set, SQL NULLs
otherwise — then one `insert_error` per set failure flag. `hashIdOf`
abstracts the id `db.insert_hash` returns; the archive path is already a
bare file name in this model, so `os.path.basename` is the identity. -/
def persistItem (hashIdOf : String → Nat) (l : ItemLocals) : List DBOp :=
  (match l.download_path, l.hash_value with
    | some p, some hv =>
        [.insertHash hv,
         .insertCrack l.file_title l.file_size l.file_extension (some p)
           (some (hashIdOf hv))]
    | _, _ =>
        [.insertCrack l.file_title l.file_size l.file_extension none none])
  ++ (match l.download_exception with
      | some true => [.insertError (l.download_info.getD "")]
      | _ => [])
  ++ (match l.timeout_exception with
      | some m => [.insertError m]
      | none => [])
  ++ (match l.size_exception with
      | some m => [.insertError m]
      | none => [])

/-- Is this operation an `insert_crack`? -/
def isCrackInsert : DBOp → Bool
  | .insertCrack _ _ _ _ _ => true
  | _ => false

/-- The (archive name, hash reference) fields of the first crack insert in
an operation trace. -/
def crackFields : List DBOp → Option (Option String × Option Nat)
  | [] => none
  | .insertCrack _ _ _ z h :: _ => some (z, h)
  | _ :: rest => crackFields rest

/-- The pipeline fully succeeded for the item: the item text was retrieved,
the size gate passed, detail resolution produced a link, `download_file`
returned without error, and `calculate_sha256` produced a digest. -/
def itemSuccess (env : ItemEnv) : Bool :=
  env.infoOk &&
  (match validate_file_size env.limit (get_parsed_file_info env.file_info).2.2 with
    | .ok _ => true
    | .error _ => false) &&
  (match env.resolve with
    | .resolved link => !(download_file { env.dl with url := link } env.fs).1.2.2
    | _ => false) &&
  env.hashResult.isSome

/-- Number of failure flags set when the `finally:` block runs. -/
def flagsSetCount (l : ItemLocals) : Nat :=
  (if l.size_exception.isSome then 1 else 0) +
  (if l.timeout_exception.isSome then 1 else 0) +
  (if l.download_exception = some true then 1 else 0)

/-- C1: every item iteration issues exactly one `insert_crack`, whichever
pipeline stage failed (size gate, detail resolution, download, or hash),
and the crack row's archive-name and hash-reference fields are non-NULL
exactly when the download succeeded and a hash was computed. -/
theorem crawl_page_one_crack_per_item (env : ItemEnv) (hashIdOf : String → Nat) :
    ((persistItem hashIdOf (runItem env)).filter isCrackInsert).length = 1 ∧
    (∃ z h, crackFields (persistItem hashIdOf (runItem env)) = some (z, h) ∧
      z.isSome = itemSuccess env ∧ h.isSome = itemSuccess env) := by
  by_cases hinfo : env.infoOk = true
  · rcases hval : validate_file_size env.limit (get_parsed_file_info env.file_info).2.2
      with e | b
    · simp [runItem, hinfo, hval, persistItem, initLocals, isCrackInsert, crackFields,
        itemSuccess]
    · rcases hres : env.resolve with link | - | -
      · rcases hpath : (download_file { env.dl with url := link } env.fs).1.2.1 with - | p
        · have herr : (download_file { env.dl with url := link } env.fs).1.2.2 = true :=
            (download_file_path_iff_err _ _).mp hpath
          simp [runItem, hinfo, hval, hres, hpath, herr, persistItem, initLocals,
            isCrackInsert, crackFields, itemSuccess]
        · have herr : (download_file { env.dl with url := link } env.fs).1.2.2 = false := by
            rcases hb : (download_file { env.dl with url := link } env.fs).1.2.2 with - | -
            · rfl
            · rw [(download_file_path_iff_err _ _).mpr hb] at hpath
              cases hpath
          rcases hh : env.hashResult with - | hv
          · simp [runItem, hinfo, hval, hres, hpath, herr, hh, persistItem, initLocals,
              isCrackInsert, crackFields, itemSuccess]
          · simp [runItem, hinfo, hval, hres, hpath, herr, hh, persistItem, initLocals,
              isCrackInsert, crackFields, itemSuccess]
            exact ⟨some p, some (hashIdOf hv), ⟨rfl, rfl⟩, rfl, rfl⟩
      · simp [runItem, hinfo, hval, hres, persistItem, initLocals, isCrackInsert,
          crackFields, itemSuccess]
      · simp [runItem, hinfo, hval, hres, persistItem, initLocals, isCrackInsert,
          crackFields, itemSuccess]
  · rw [Bool.not_eq_true] at hinfo
    simp [runItem, hinfo, persistItem, initLocals, isCrackInsert, crackFields, itemSuccess]

/-- C9: the three failure flags checked by the `finally:` block are pairwise
mutually exclusive — no item iteration reaches persistence with more than
one of (size rejection, timeout, download error) set, so no item produces
error records in more than one category. -/
theorem crawl_page_failure_flags_exclusive (env : ItemEnv) :
    flagsSetCount (runItem env) ≤ 1 := by
  by_cases hinfo : env.infoOk = true
  · rcases hval : validate_file_size env.limit (get_parsed_file_info env.file_info).2.2
      with e | b
    · simp [runItem, hinfo, hval, flagsSetCount, initLocals]
    · rcases hres : env.resolve with link | - | -
      · rcases hpath : (download_file { env.dl with url := link } env.fs).1.2.1 with - | p
        · simp [runItem, hinfo, hval, hres, hpath, flagsSetCount, initLocals]
          split <;> simp
        · simp [runItem, hinfo, hval, hres, hpath, flagsSetCount, initLocals]
          split <;> simp
      · simp [runItem, hinfo, hval, hres, flagsSetCount, initLocals]
      · simp [runItem, hinfo, hval, hres, flagsSetCount, initLocals]
  · rw [Bool.not_eq_true] at hinfo
    simp [runItem, hinfo, flagsSetCount, initLocals]
